import Mathlib

/-!
Verification of the textcomplete dropdown core.

Shallow embedding of the two source files:
* `src/dropdown-item.js` — class `DropdownItem` (constructor, `finalize`,
  `appended`, `activate`, `deactivate`, getters `next` / `prev`).
* `src/dropdown.js` — class `Dropdown` (constructor, `render`, `deactivate`,
  `select`, `up`, `down`, `getActiveItem`, `append`, `show`, `hide`, `clear`,
  `moveActiveItem`, `setStrategyId`, `renderEdge`).

Modelling conventions:
* DOM element handling (`el`, class names, offsets, `setOffset`, `style`,
  `className`, `placement`) is visual-only and is not part of the state model,
  except for the pieces of the element tree that the claims are about: the
  `data-strategy` attribute and the contents of the header / footer `<li>`
  decorations, which are recorded as fields of the `Dropdown` state.
* `EventEmitter` observers are modelled by a record of boolean cancellation
  decisions (`Observers`): an observer of a cancelable event either calls
  `preventDefault()` or does not.  Emitted events are collected in a list.
* A thrown JavaScript exception is modelled by the `err` field of
  `StepResult`: `some e` means the call threw after mutating the state to
  `state` (JavaScript mutates objects in place, so the partially updated
  state survives the throw).
* `DropdownItem` objects live inside the owning dropdown's `items` list; the
  JavaScript aliasing `this.siblings = dropdown.items` is rendered by passing
  the current `items` list to the sibling getters.
-/

/-- The methods defined on the `DropdownItem` class in `src/dropdown-item.js`
(used to model JavaScript method dispatch: calling an absent method throws a
`TypeError`). -/
def dropdownItemMethods : List String :=
  ["constructor", "el", "finalize", "appended", "activate", "deactivate",
   "next", "prev"]

/-- `searchResult.strategy.props.id` is the only part of a search result that
the dropdown core inspects besides the raw `data` payload (which it forwards
whole to header/footer functions).  `data` is modelled as an opaque `Nat`. -/
structure SearchResult where
  data : Nat
  strategyId : Option String
deriving DecidableEq, Repr

/-- One dropdown item (`src/dropdown-item.js`).  The constructor sets
`active = false`; `index` is assigned by `appended` (it is `undefined` until
then, and no claim exercises it before `appended`; `0` is a placeholder).
The lodash `uniqueId` and the `<li>` element are visual-only and omitted. -/
structure DropdownItem where
  searchResult : SearchResult
  active : Bool
  index : Nat
deriving DecidableEq, Repr

/-- `new DropdownItem(searchResult)`. -/
def DropdownItem.new (searchResult : SearchResult) : DropdownItem :=
  { searchResult := searchResult, active := false, index := 0 }

/-- `activate()`: `if (!this.active) { this.active = true; el.className = ACTIVE }`.
Note it only flips this item's own flag; it does not touch any sibling. -/
def DropdownItem.activate (item : DropdownItem) : DropdownItem :=
  if !item.active then { item with active := true } else item

/-- `deactivate()`: symmetric to `activate`. -/
def DropdownItem.deactivate (item : DropdownItem) : DropdownItem :=
  if item.active then { item with active := false } else item

/-- `get next`: `nextIndex = (this.index === this.siblings.length - 1 ? 0 : this.index + 1)`.
The wrap at the end is unconditional; nothing here consults the dropdown's
`rotate` option. -/
def DropdownItem.nextIndex (item : DropdownItem) (siblingsLength : Nat) : Nat :=
  if item.index = siblingsLength - 1 then 0 else item.index + 1

/-- `get prev`: `prevIndex = (this.index === 0 ? this.siblings.length : this.index) - 1`. -/
def DropdownItem.prevIndex (item : DropdownItem) (siblingsLength : Nat) : Nat :=
  (if item.index = 0 then siblingsLength else item.index) - 1

/-- `this.siblings[nextIndex]`; `none` models the `undefined` result of an
out-of-range index. -/
def DropdownItem.next (item : DropdownItem) (siblings : List DropdownItem) :
    Option DropdownItem :=
  siblings.get? (item.nextIndex siblings.length)

/-- `this.siblings[prevIndex]`. -/
def DropdownItem.prev (item : DropdownItem) (siblings : List DropdownItem) :
    Option DropdownItem :=
  siblings.get? (item.prevIndex siblings.length)

/-- Lifecycle events emitted by the dropdown; `select` / `selected` carry the
chosen item's search result (`event.detail.searchResult`). -/
inductive Event where
  | renderEv
  | renderedEv
  | showEv
  | shownEv
  | hideEv
  | hiddenEv
  | selectEv (searchResult : SearchResult)
  | selectedEv (searchResult : SearchResult)
deriving DecidableEq, Repr

/-- A thrown JavaScript exception. -/
inductive JsError where
  | typeError (message : String)
deriving DecidableEq, Repr

/-- The cancellation decisions of the registered observers: for each
cancelable event, whether some listener calls `preventDefault()`. -/
structure Observers where
  cancelRender : Bool
  cancelShow : Bool
  cancelHide : Bool
  cancelSelect : Bool
deriving DecidableEq, Repr

/-- Header / footer configuration: absent, a literal string, or a function of
the full raw result batch. -/
inductive EdgeSource where
  | absent
  | str (s : String)
  | fn (f : List Nat → String)

/-- `renderEdge`'s content computation:
`source = (...) || ""`, then `typeof source === "function" ? source(rawResults) : source`. -/
def EdgeSource.renderContent : EdgeSource → List Nat → String
  | EdgeSource.absent, _ => ""
  | EdgeSource.str s, _ => s
  | EdgeSource.fn f, rawResults => f rawResults

inductive EdgeType where
  | header
  | footer
deriving DecidableEq, Repr

/-- Constructor options (`DropdownOptions`).  `className` and `style` only
touch element styling and are omitted from the state model. -/
structure DropdownOptions where
  footer : EdgeSource
  header : EdgeSource
  maxCount : Option Nat
  placement : Option String
  rotate : Option Bool

/-- The dropdown state.  `strategyAttr` models the `data-strategy` attribute
of the `<ul>` element; `headerContent` / `footerContent` model the contents of
the header / footer `<li>` children (`none` = no such child attached). -/
structure Dropdown where
  shown : Bool
  items : List DropdownItem
  footer : EdgeSource
  header : EdgeSource
  maxCount : Nat
  rotate : Bool
  placement : Option String
  strategyAttr : Option String
  headerContent : Option String
  footerContent : Option String

/-- Result of one public call: the state when control returns (or when the
exception escapes), the events emitted during the call, and the exception if
one was thrown. -/
structure StepResult where
  state : Dropdown
  events : List Event
  err : Option JsError

/-- `new Dropdown(options)`:
`this.shown = false; this.items = []; this.maxCount = options.maxCount || 10;`
`this.rotate = options.hasOwnProperty("rotate") ? options.rotate : true`.
Note `rotate` is stored here and never read again by any method of either
source file. -/
def Dropdown.new (options : DropdownOptions) : Dropdown :=
  { shown := false
    items := []
    footer := options.footer
    header := options.header
    maxCount :=
      match options.maxCount with
      | Option.none => 10
      | some n => if n = 0 then 10 else n
    rotate :=
      match options.rotate with
      | Option.none => true
      | some b => b
    placement := options.placement
    strategyAttr := Option.none
    headerContent := Option.none
    footerContent := Option.none }

/-- `getActiveItem()`: `this.items.find(item => item.active)`. -/
def Dropdown.getActiveItem (d : Dropdown) : Option DropdownItem :=
  d.items.find? (fun item => item.active)

/-- `clear()`:
`this.el.innerHTML = ""` (detaches every child, including the decorations),
then `this.items.forEach(item => item.destroy())`, then `this.items = []`.
`DropdownItem` defines no `destroy` method (see `dropdownItemMethods`; its
cleanup method is called `finalize`), so on a non-empty collection the
`forEach` body throws a `TypeError` at the first item, before `this.items`
is reset. -/
def Dropdown.clear (d : Dropdown) : StepResult :=
  let d1 := { d with headerContent := Option.none, footerContent := Option.none }
  if d1.items.isEmpty then
    { state := d1, events := [], err := Option.none }
  else if dropdownItemMethods.contains "destroy" then
    { state := { d1 with items := [] }, events := [], err := Option.none }
  else
    { state := d1, events := [],
      err := some (JsError.typeError "item.destroy is not a function") }

/-- `setStrategyId(searchResult)`:
`const strategyId = searchResult && searchResult.strategy.props.id` and then
set or remove the `data-strategy` attribute depending on truthiness (an empty
string id is falsy). -/
def Dropdown.setStrategyId (d : Dropdown) (searchResult : Option SearchResult) :
    Dropdown :=
  let strategyId :=
    match searchResult with
    | Option.none => Option.none
    | some sr => sr.strategyId
  { d with
    strategyAttr :=
      match strategyId with
      | some sid => if sid.isEmpty then Option.none else some sid
      | Option.none => Option.none }

/-- `renderEdge(rawResults, type)`: build an `<li>` whose innerHTML is the
computed content and append it; the full `rawResults` list (not the truncated
item list) is what a function source receives. -/
def Dropdown.renderEdge (d : Dropdown) (rawResults : List Nat)
    (type : EdgeType) : Dropdown :=
  match type with
  | EdgeType.header =>
      { d with headerContent := some (d.header.renderContent rawResults) }
  | EdgeType.footer =>
      { d with footerContent := some (d.footer.renderContent rawResults) }

/-- `append(items)`: for each item, `this.items.push(item)` then
`item.appended(this)`, which sets `item.index = this.items.length - 1`
(the length just after the push) and calls `item.activate()` when that index
is `0`. -/
def Dropdown.appendItems (d : Dropdown) : List DropdownItem → Dropdown
  | [] => d
  | item :: rest =>
      Dropdown.appendItems
        { d with
          items := d.items ++
            [if d.items.length = 0
              then DropdownItem.activate { item with index := d.items.length }
              else { item with index := d.items.length }] }
        rest

/-- `show()` (source name `show`): no-op when already shown; otherwise emit
cancelable `show`, and unless canceled set `shown = true` and emit `shown`. -/
def Dropdown.show' (d : Dropdown) (obs : Observers) : StepResult :=
  if d.shown then
    { state := d, events := [], err := Option.none }
  else if obs.cancelShow then
    { state := d, events := [Event.showEv], err := Option.none }
  else
    { state := { d with shown := true }, events := [Event.showEv, Event.shownEv],
      err := Option.none }

/-- `hide()`: no-op when already hidden; otherwise emit cancelable `hide`, and
unless canceled set `shown = false` and emit `hidden`. -/
def Dropdown.hide (d : Dropdown) (obs : Observers) : StepResult :=
  if d.shown then
    if obs.cancelHide then
      { state := d, events := [Event.hideEv], err := Option.none }
    else
      { state := { d with shown := false },
        events := [Event.hideEv, Event.hiddenEv], err := Option.none }
  else
    { state := d, events := [], err := Option.none }

/-- `this.maxCount || searchResults.length`: the slice bound used by
`render` (`0` is the only falsy `Nat`). -/
def Dropdown.renderCap (d : Dropdown) (searchResults : List SearchResult) : Nat :=
  if d.maxCount = 0 then searchResults.length else d.maxCount

/-- `render(searchResults, cursorOffset)`:
emit cancelable `render` (abort when canceled); otherwise compute
`rawResults`, build the sliced `DropdownItem` list, then chain
`clear → setStrategyId(searchResults[0]) → renderEdge(header) → append →
renderEdge(footer) → setOffset → show`, and finally emit `rendered`.
A throw inside `clear` escapes the whole chain.  `setOffset` only positions
the element and is not part of the state model. -/
def Dropdown.render (d : Dropdown) (obs : Observers)
    (searchResults : List SearchResult) : StepResult :=
  if obs.cancelRender then
    { state := d, events := [Event.renderEv], err := Option.none }
  else
    let rawResults := searchResults.map (fun sr => sr.data)
    let dropdownItems :=
      (searchResults.take (d.renderCap searchResults)).map DropdownItem.new
    let r1 := d.clear
    if r1.err.isSome then
      { state := r1.state, events := Event.renderEv :: r1.events, err := r1.err }
    else
      let s1 := r1.state.setStrategyId searchResults.head?
      let s2 := s1.renderEdge rawResults EdgeType.header
      let s3 := s2.appendItems dropdownItems
      let s4 := s3.renderEdge rawResults EdgeType.footer
      let r2 := s4.show' obs
      { state := r2.state,
        events := (Event.renderEv :: (r1.events ++ r2.events)) ++ [Event.renderedEv],
        err := r2.err }

/-- `deactivate()`: `return this.hide().clear()` (`hide` never throws; `clear`
may). -/
def Dropdown.deactivate (d : Dropdown) (obs : Observers) : StepResult :=
  let r1 := d.hide obs
  let r2 := r1.state.clear
  { state := r2.state, events := r1.events ++ r2.events, err := r2.err }

/-- `select(dropdownItem)`: emit cancelable `select` carrying the item's
search result (abort when canceled); otherwise `this.deactivate()` then emit
`selected` with the same detail.  A throw inside `deactivate` escapes before
`selected` is emitted. -/
def Dropdown.select (d : Dropdown) (obs : Observers)
    (dropdownItem : DropdownItem) : StepResult :=
  if obs.cancelSelect then
    { state := d, events := [Event.selectEv dropdownItem.searchResult],
      err := Option.none }
  else
    let r := d.deactivate obs
    match r.err with
    | some e =>
        { state := r.state,
          events := Event.selectEv dropdownItem.searchResult :: r.events,
          err := some e }
    | Option.none =>
        { state := r.state,
          events := (Event.selectEv dropdownItem.searchResult :: r.events) ++
            [Event.selectedEv dropdownItem.searchResult],
          err := Option.none }

/-- `moveActiveItem(name, e)`: resolve the active item; take its `next` /
`prev` sibling (or the first / last item when nothing is active); if the
result is defined, `nextActiveItem.activate()` and `e.preventDefault()`.
The returned `Bool` records whether `preventDefault` was called.  Note the
previously active item is never deactivated here. -/
def Dropdown.moveActiveItem (d : Dropdown) (toNext : Bool) : Dropdown × Bool :=
  let targetIndex : Option Nat :=
    match d.getActiveItem with
    | some activeItem =>
        some (if toNext then activeItem.nextIndex d.items.length
              else activeItem.prevIndex d.items.length)
    | Option.none =>
        if d.items.isEmpty then Option.none
        else some (if toNext then 0 else d.items.length - 1)
  match targetIndex with
  | some i =>
      match d.items.get? i with
      | some item => ({ d with items := d.items.set i item.activate }, true)
      | Option.none => (d, false)
  | Option.none => (d, false)

/-- `up(e)`: `this.shown ? this.moveActiveItem("prev", e) : this`. -/
def Dropdown.up (d : Dropdown) : Dropdown × Bool :=
  if d.shown then d.moveActiveItem false else (d, false)

/-- `down(e)`: `this.shown ? this.moveActiveItem("next", e) : this`. -/
def Dropdown.down (d : Dropdown) : Dropdown × Bool :=
  if d.shown then d.moveActiveItem true else (d, false)

/-- A caller invoking the public `DropdownItem#activate` on the i-th item of
the live collection (e.g. the host library's mouseover handler). -/
def Dropdown.itemActivate (d : Dropdown) (i : Nat) : Dropdown :=
  match d.items.get? i with
  | some item => { d with items := d.items.set i item.activate }
  | Option.none => d

/-- A caller invoking the public `DropdownItem#deactivate` on the i-th item of
the live collection. -/
def Dropdown.itemDeactivate (d : Dropdown) (i : Nat) : Dropdown :=
  match d.items.get? i with
  | some item => { d with items := d.items.set i item.deactivate }
  | Option.none => d

/-! ### Proof-side helper definitions and concrete fixtures -/

/-- The item list produced by appending a batch of fresh items to an empty
collection: the first item gets index 0 and self-activates; the rest only
receive their indices. -/
def reindexFrom : Nat → List DropdownItem → List DropdownItem
  | _, [] => []
  | n, item :: rest => { item with index := n } :: reindexFrom (n + 1) rest

/-- Closed form of `Dropdown.appendItems` starting from an empty collection. -/
def buildItems : List DropdownItem → List DropdownItem
  | [] => []
  | item :: rest => DropdownItem.activate { item with index := 0 } :: reindexFrom 1 rest

/-- Concrete search results used by the concrete-input theorems. -/
def srA : SearchResult := { data := 0, strategyId := some "strategy1" }

def srB : SearchResult := { data := 1, strategyId := some "strategy1" }

def srC : SearchResult := { data := 2, strategyId := some "strategy1" }

/-- Observers that cancel nothing. -/
def noObs : Observers :=
  { cancelRender := false, cancelShow := false, cancelHide := false,
    cancelSelect := false }

/-- `new Dropdown({})`. -/
def defaultOpts : DropdownOptions :=
  { footer := EdgeSource.absent, header := EdgeSource.absent,
    maxCount := Option.none, placement := Option.none, rotate := Option.none }

/-- A fresh default dropdown after one successful `render` with a single
candidate: one item, active, dropdown shown. -/
def renderedOne : StepResult := (Dropdown.new defaultOpts).render noObs [srA]

/-- The single item of `renderedOne` (what a caller would pass to `select`). -/
def selItem : DropdownItem := renderedOne.state.items.headD (DropdownItem.new srA)

/-- A fresh default dropdown after one successful `render` with two
candidates. -/
def renderedTwo : StepResult := (Dropdown.new defaultOpts).render noObs [srA, srB]

/-- Constructor options with `rotate: false`. -/
def rotateFalseOpts : DropdownOptions :=
  { footer := EdgeSource.absent, header := EdgeSource.absent,
    maxCount := Option.none, placement := Option.none, rotate := some false }

/-- A `rotate: false` dropdown after rendering two candidates and after a
caller used the public item methods to move the activation to the last item
(`items[0].deactivate(); items[1].activate()`, as a mouseover handler
would). -/
def rotateFalseLastActive : Dropdown :=
  ((((Dropdown.new rotateFalseOpts).render noObs [srA, srB]).state.itemDeactivate
      0).itemActivate 1)

/-- A second `render` issued after `renderedOne`, with a two-candidate
batch. -/
def secondRenderTwo : StepResult := renderedOne.state.render noObs [srA, srB]

/-- A second `render` issued after `renderedOne`, with the one-candidate
batch `[srB]`. -/
def secondRenderB : StepResult := renderedOne.state.render noObs [srB]

/-- Observers that cancel only the `render` event. -/
def cancelRenderObs : Observers :=
  { cancelRender := true, cancelShow := false, cancelHide := false,
    cancelSelect := false }

/-- Observers that cancel only the `select` event. -/
def cancelSelectObs : Observers :=
  { cancelRender := false, cancelShow := false, cancelHide := false,
    cancelSelect := true }

/-- Observers that cancel only the `hide` event. -/
def cancelHideObs : Observers :=
  { cancelRender := false, cancelShow := false, cancelHide := true,
    cancelSelect := false }

/-- `select` on the rendered item with the `select` event canceled. -/
def selectCanceled : StepResult := renderedOne.state.select cancelSelectObs selItem

/-- `select` on the rendered item with nothing canceled. -/
def selectUncanceled : StepResult := renderedOne.state.select noObs selItem

/-- `select` on the rendered item with the `hide` event canceled. -/
def selectHideCanceled : StepResult :=
  renderedOne.state.select cancelHideObs selItem

/-- The header function of the spec scenario: `raw => raw.length + " results"`. -/
def headerCountFn : EdgeSource :=
  EdgeSource.fn (fun raw => Nat.repr raw.length ++ " results")

/-- Options for the spec scenario: counting header, `maxCount: 2`. -/
def headerScenarioOpts : DropdownOptions :=
  { footer := EdgeSource.absent, header := headerCountFn, maxCount := some 2,
    placement := Option.none, rotate := Option.none }

/-- The five-candidate batch of the spec scenario. -/
def fiveResults : List SearchResult :=
  [{ data := 10, strategyId := Option.none },
   { data := 11, strategyId := Option.none },
   { data := 12, strategyId := Option.none },
   { data := 13, strategyId := Option.none },
   { data := 14, strategyId := Option.none }]

/-- `render` of the five-candidate batch under `headerScenarioOpts`. -/
def headerScenario : StepResult :=
  (Dropdown.new headerScenarioOpts).render noObs fiveResults

/-- Constructor options with `maxCount: 0` (a falsy number). -/
def maxCountZeroOpts : DropdownOptions :=
  { footer := EdgeSource.absent, header := EdgeSource.absent, maxCount := some 0,
    placement := Option.none, rotate := Option.none }

/-- A twelve-candidate batch. -/
def twelveResults : List SearchResult :=
  (List.range 12).map (fun n => { data := n, strategyId := Option.none })

/-- A dropdown state whose `maxCount` field is `0` (not producible by the
constructor, which coerces falsy `maxCount` to 10; used for the render-time
`this.maxCount || searchResults.length` fallback). -/
def maxCountZeroState : Dropdown :=
  { shown := false, items := [], footer := EdgeSource.absent,
    header := EdgeSource.absent, maxCount := 0, rotate := true,
    placement := Option.none, strategyAttr := Option.none,
    headerContent := Option.none, footerContent := Option.none }

/-! ### Helper lemmas -/

theorem DropdownItem.activate_searchResult (item : DropdownItem) :
    item.activate.searchResult = item.searchResult := by
  unfold DropdownItem.activate
  split <;> rfl

theorem DropdownItem.activate_active (item : DropdownItem) :
    item.activate.active = true := by
  unfold DropdownItem.activate
  split <;> simp_all

theorem reindexFrom_length (n : Nat) (L : List DropdownItem) :
    (reindexFrom n L).length = L.length := by
  induction L generalizing n with
  | nil => rfl
  | cons a rest ih => simp [reindexFrom, ih]

theorem reindexFrom_map_searchResult (n : Nat) (L : List DropdownItem) :
    (reindexFrom n L).map (fun it => it.searchResult)
      = L.map (fun it => it.searchResult) := by
  induction L generalizing n with
  | nil => rfl
  | cons a rest ih => simp [reindexFrom, ih]

theorem reindexFrom_map_active (n : Nat) (L : List DropdownItem) :
    (reindexFrom n L).map (fun it => it.active)
      = L.map (fun it => it.active) := by
  induction L generalizing n with
  | nil => rfl
  | cons a rest ih => simp [reindexFrom, ih]

theorem buildItems_length (L : List DropdownItem) :
    (buildItems L).length = L.length := by
  cases L with
  | nil => rfl
  | cons a rest => simp [buildItems, reindexFrom_length]

theorem buildItems_map_searchResult (L : List DropdownItem) :
    (buildItems L).map (fun it => it.searchResult)
      = L.map (fun it => it.searchResult) := by
  cases L with
  | nil => rfl
  | cons a rest =>
      simp [buildItems, DropdownItem.activate_searchResult,
        reindexFrom_map_searchResult]

theorem map_active_eq_replicate (l : List DropdownItem)
    (h : ∀ it ∈ l, it.active = false) :
    l.map (fun it => it.active) = List.replicate l.length false := by
  induction l with
  | nil => rfl
  | cons a rest ih =>
      have ha : a.active = false := h a (by simp)
      have hrest : ∀ it ∈ rest, it.active = false :=
        fun it hit => h it (List.mem_cons_of_mem _ hit)
      simp [ha, ih hrest, List.replicate_succ]

theorem new_map_searchResult (l : List SearchResult) :
    (l.map DropdownItem.new).map (fun it => it.searchResult) = l := by
  induction l with
  | nil => rfl
  | cons a rest ih => simp [DropdownItem.new, ih]

theorem new_all_inactive (l : List SearchResult) :
    ∀ it ∈ l.map DropdownItem.new, it.active = false := by
  intro it hit
  rcases List.mem_map.mp hit with ⟨sr, _, rfl⟩
  rfl

theorem new_comp_active :
    ((fun it => it.active) ∘ DropdownItem.new) = (fun _ : SearchResult => false) :=
  rfl

theorem appendItems_of_ne_nil (d : Dropdown) (L : List DropdownItem)
    (hd : d.items ≠ []) :
    (d.appendItems L).items = d.items ++ reindexFrom d.items.length L := by
  induction L generalizing d with
  | nil => simp [Dropdown.appendItems, reindexFrom]
  | cons a rest ih =>
      have h0 : ¬ d.items.length = 0 := by
        simpa [List.length_eq_zero] using hd
      simp only [Dropdown.appendItems, if_neg h0]
      rw [ih _ (by simp)]
      simp [reindexFrom, List.append_assoc]

theorem appendItems_of_empty (d : Dropdown) (L : List DropdownItem)
    (hd : d.items = []) :
    (d.appendItems L).items = buildItems L := by
  cases L with
  | nil => simpa [Dropdown.appendItems, buildItems] using hd
  | cons a rest =>
      simp only [Dropdown.appendItems, hd, List.length_nil, if_pos rfl,
        List.nil_append]
      rw [appendItems_of_ne_nil _ _ (by simp)]
      simp [buildItems]

theorem appendItems_headerContent (d : Dropdown) (L : List DropdownItem) :
    (d.appendItems L).headerContent = d.headerContent := by
  induction L generalizing d with
  | nil => rfl
  | cons a rest ih =>
      simp only [Dropdown.appendItems]
      rw [ih]

theorem appendItems_footerContent (d : Dropdown) (L : List DropdownItem) :
    (d.appendItems L).footerContent = d.footerContent := by
  induction L generalizing d with
  | nil => rfl
  | cons a rest ih =>
      simp only [Dropdown.appendItems]
      rw [ih]

theorem appendItems_footer (d : Dropdown) (L : List DropdownItem) :
    (d.appendItems L).footer = d.footer := by
  induction L generalizing d with
  | nil => rfl
  | cons a rest ih =>
      simp only [Dropdown.appendItems]
      rw [ih]

theorem show'_err (d : Dropdown) (obs : Observers) :
    (d.show' obs).err = Option.none := by
  unfold Dropdown.show'
  split
  · rfl
  · split <;> rfl

theorem show'_state_items (d : Dropdown) (obs : Observers) :
    (d.show' obs).state.items = d.items := by
  unfold Dropdown.show'
  split
  · rfl
  · split <;> rfl

theorem show'_state_headerContent (d : Dropdown) (obs : Observers) :
    (d.show' obs).state.headerContent = d.headerContent := by
  unfold Dropdown.show'
  split
  · rfl
  · split <;> rfl

theorem show'_state_footerContent (d : Dropdown) (obs : Observers) :
    (d.show' obs).state.footerContent = d.footerContent := by
  unfold Dropdown.show'
  split
  · rfl
  · split <;> rfl

theorem clear_of_empty (d : Dropdown) (hd : d.items = []) :
    d.clear =
      { state := { d with headerContent := Option.none, footerContent := Option.none },
        events := [],
        err := Option.none } := by
  unfold Dropdown.clear
  simp [hd]

/-- Master lemma for a `render` that runs to completion: the `render` event is
not canceled and the prior collection is empty (otherwise `clear` throws).
Gives the exact item list and the decoration contents. -/
theorem render_ok (d : Dropdown) (obs : Observers) (srs : List SearchResult)
    (hc : obs.cancelRender = false) (hemp : d.items = []) :
    (d.render obs srs).err = Option.none ∧
    (d.render obs srs).state.items =
      buildItems ((srs.take (d.renderCap srs)).map DropdownItem.new) ∧
    (d.render obs srs).state.headerContent =
      some (d.header.renderContent (srs.map (fun sr => sr.data))) ∧
    (d.render obs srs).state.footerContent =
      some (d.footer.renderContent (srs.map (fun sr => sr.data))) := by
  unfold Dropdown.render
  rw [clear_of_empty d hemp]
  refine ⟨?_, ?_, ?_, ?_⟩
  · simp [hc, show'_err]
  · simp [hc, show'_state_items, Dropdown.renderEdge, Dropdown.setStrategyId]
    rw [appendItems_of_empty _ _ (by simp [hemp])]
  · simp [hc, show'_state_headerContent, Dropdown.renderEdge,
      appendItems_headerContent, Dropdown.setStrategyId]
  · simp [hc, show'_state_footerContent, Dropdown.renderEdge,
      appendItems_footerContent, appendItems_footer, Dropdown.setStrategyId]

/-! ### Claim theorems -/

/-- C1: the claim states that at most one item is ever active and that
activating an item deactivates the previously active one.  The code violates
this: from a fresh dropdown, `render` of two candidates leaves exactly
`items[0]` active, but one `down` call activates `items[1]` through
`DropdownItem#activate`, which only flips its own flag, and
`Dropdown#moveActiveItem` never deactivates the old active item — so both
items end up with `active == true`. -/
theorem C1_down_leaves_two_items_active :
    renderedTwo.err = Option.none ∧
    renderedTwo.state.items.map (fun it => it.active) = [true, false] ∧
    ((renderedTwo.state.down).1.items.map (fun it => it.active)) = [true, true] :=
  ⟨rfl, rfl, rfl⟩

/-- C2: the claim states that with `rotate == false`, `down` at the last item
is a no-op.  The code violates this: the constructor stores `rotate` but no
method ever reads it, and `DropdownItem`'s `next` getter wraps from the last
index to `0` unconditionally.  With `rotate: false`, two items, and the last
item active, `down` activates the first item (and, per C1's bug, also leaves
the last one active), so the active item does change. -/
theorem C2_down_wraps_although_rotate_false :
    rotateFalseLastActive.rotate = false ∧
    rotateFalseLastActive.items.map (fun it => (it.searchResult.data, it.active))
      = [(0, false), (1, true)] ∧
    (rotateFalseLastActive.getActiveItem).map (fun it => it.searchResult.data)
      = some 1 ∧
    ((rotateFalseLastActive.down).1.getActiveItem).map (fun it => it.searchResult.data)
      = some 0 ∧
    ((rotateFalseLastActive.down).1.items.map (fun it => it.active)) = [true, true] :=
  ⟨rfl, rfl, rfl, rfl, rfl⟩

/-- C3: the claim states that `clear()` always succeeds, destroying every
item, and that the per-item destruction call is defined.  The code violates
this: `clear()` invokes `item.destroy()`, but the `DropdownItem` class defines
no `destroy` method (its cleanup method is `finalize`), so on any non-empty
collection `clear()` throws a `TypeError` before `this.items` is reset — the
collection is not emptied.  Only the empty-collection case succeeds. -/
theorem C3_clear_throws_on_nonempty_collection :
    ("destroy" ∈ dropdownItemMethods → False) ∧
    ((Dropdown.new defaultOpts).clear).err = Option.none ∧
    renderedOne.state.items.length = 1 ∧
    (renderedOne.state.clear).err
      = some (JsError.typeError "item.destroy is not a function") ∧
    (renderedOne.state.clear).state.items.length = 1 :=
  ⟨by decide, rfl, rfl, rfl, rfl⟩

/-- C4 counterexample: a non-canceled `render` call issued while the dropdown
already holds one item throws inside `clear()` and leaves the old single item
in place, so `items.length` is `1` and not `min(maxCount, 2) = 2`. -/
theorem C4_second_render_counterexample :
    secondRenderTwo.err
      = some (JsError.typeError "item.destroy is not a function") ∧
    secondRenderTwo.state.items.length = 1 ∧
    min secondRenderTwo.state.maxCount 2 = 2 ∧
    secondRenderTwo.state.items.length ≠ min secondRenderTwo.state.maxCount 2 :=
  ⟨rfl, rfl, by decide, by decide⟩

/-- C4 (amended): for every `render` call whose `render` event is not
canceled and which starts from an empty item collection (so that `clear()`
does not throw), the call completes and `items.length = min(maxCount,
candidates.length)`, the items being exactly the first `maxCount` candidates
in batch order. -/
theorem C4_render_items_length_min (d : Dropdown) (obs : Observers)
    (srs : List SearchResult) (hc : obs.cancelRender = false)
    (hm : 0 < d.maxCount) (hemp : d.items = []) :
    (d.render obs srs).err = Option.none ∧
    (d.render obs srs).state.items.length = min d.maxCount srs.length ∧
    (d.render obs srs).state.items.map (fun it => it.searchResult)
      = srs.take d.maxCount := by
  obtain ⟨herr, hitems, -, -⟩ := render_ok d obs srs hc hemp
  have hcap : d.renderCap srs = d.maxCount := by
    unfold Dropdown.renderCap
    simp [Nat.pos_iff_ne_zero.mp hm]
  refine ⟨herr, ?_, ?_⟩
  · rw [hitems, buildItems_length, List.length_map, hcap, List.length_take]
  · rw [hitems, buildItems_map_searchResult, new_map_searchResult, hcap]

/-- C4 witness: a fresh default dropdown (maxCount 10) rendering a
three-candidate batch yields all three candidates as items. -/
theorem C4_render_items_length_min_witness :
    (noObs.cancelRender = false ∧ 0 < (Dropdown.new defaultOpts).maxCount ∧
      (Dropdown.new defaultOpts).items = []) ∧
    (((Dropdown.new defaultOpts).render noObs [srA, srB, srC]).err = Option.none ∧
     ((Dropdown.new defaultOpts).render noObs [srA, srB, srC]).state.items.length
       = min (Dropdown.new defaultOpts).maxCount ([srA, srB, srC] : List SearchResult).length ∧
     ((Dropdown.new defaultOpts).render noObs [srA, srB, srC]).state.items.map
        (fun it => it.searchResult)
       = ([srA, srB, srC] : List SearchResult).take (Dropdown.new defaultOpts).maxCount) :=
  ⟨⟨rfl, by decide, rfl⟩,
   C4_render_items_length_min (Dropdown.new defaultOpts) noObs [srA, srB, srC]
     rfl (by decide) rfl⟩

/-- C5 counterexample: a non-canceled `render` of the non-empty batch `[srB]`
issued after a previous render throws inside `clear()`; afterwards the single
active item is still the stale item built from `srA`, not the item built from
the new top-ranked candidate `srB`. -/
theorem C5_second_render_counterexample :
    secondRenderB.err
      = some (JsError.typeError "item.destroy is not a function") ∧
    secondRenderB.state.items.map (fun it => (it.searchResult.data, it.active))
      = [(0, true)] ∧
    secondRenderB.state.items.head?.map (fun it => it.searchResult) ≠ some srB :=
  ⟨rfl, rfl, by decide⟩

/-- C5 (amended): for every non-empty candidate batch, a `render` call whose
`render` event is not canceled and which starts from an empty item collection
completes with exactly the first item active (active flags are
`true :: false … false`) and that first item is built from the top-ranked
candidate. -/
theorem C5_first_item_active_after_render (d : Dropdown) (obs : Observers)
    (srs : List SearchResult) (hc : obs.cancelRender = false)
    (hemp : d.items = []) (hne : srs ≠ []) :
    (d.render obs srs).err = Option.none ∧
    ((d.render obs srs).state.items.map (fun it => it.active)) =
      true :: List.replicate ((d.render obs srs).state.items.length - 1) false ∧
    ((d.render obs srs).state.items.head?.map (fun it => it.searchResult))
      = srs.head? := by
  obtain ⟨herr, hitems, -, -⟩ := render_ok d obs srs hc hemp
  obtain ⟨s, t, rfl⟩ : ∃ s t, srs = s :: t := by
    cases srs with
    | nil => exact absurd rfl hne
    | cons s t => exact ⟨s, t, rfl⟩
  obtain ⟨k, hk⟩ : ∃ k, Dropdown.renderCap d (s :: t) = k + 1 := by
    unfold Dropdown.renderCap
    by_cases h0 : d.maxCount = 0
    · exact ⟨t.length, by simp [h0]⟩
    · exact ⟨d.maxCount - 1, by simp only [if_neg h0]; omega⟩
  rw [hk, List.take_succ_cons, List.map_cons] at hitems
  refine ⟨herr, ?_, ?_⟩
  · rw [hitems]
    simp [buildItems, DropdownItem.activate_active, reindexFrom_map_active,
      reindexFrom_length, new_comp_active, List.map_const', List.length_take]
  · rw [hitems]
    simp [buildItems, DropdownItem.activate_searchResult, DropdownItem.new]

/-- C5 witness: a fresh default dropdown rendering `[srA, srB]`: the call
completes, the active flags are `[true, false]`, and the head item carries
`srA`. -/
theorem C5_first_item_active_after_render_witness :
    (noObs.cancelRender = false ∧ (Dropdown.new defaultOpts).items = [] ∧
      ([srA, srB] : List SearchResult) ≠ []) ∧
    (((Dropdown.new defaultOpts).render noObs [srA, srB]).err = Option.none ∧
     (((Dropdown.new defaultOpts).render noObs [srA, srB]).state.items.map
        (fun it => it.active)) =
       true :: List.replicate
         (((Dropdown.new defaultOpts).render noObs [srA, srB]).state.items.length - 1)
         false ∧
     (((Dropdown.new defaultOpts).render noObs [srA, srB]).state.items.head?.map
        (fun it => it.searchResult)) = ([srA, srB] : List SearchResult).head?) :=
  ⟨⟨rfl, rfl, by decide⟩,
   C5_first_item_active_after_render (Dropdown.new defaultOpts) noObs [srA, srB]
     rfl rfl (by decide)⟩

/-- C6: if an observer cancels the `render` event, the call returns with the
state exactly as it was — same items, same active item, same visibility — the
only emitted event is `render`, no exception is thrown, and none of the later
render steps (clear, build, show) runs. -/
theorem C6_render_cancel_no_state_change (d : Dropdown) (obs : Observers)
    (srs : List SearchResult) (hc : obs.cancelRender = true) :
    d.render obs srs
      = { state := d, events := [Event.renderEv], err := Option.none } := by
  unfold Dropdown.render
  simp [hc]

/-- C6 witness: canceling `render` on a dropdown that already holds a rendered
item leaves the whole state record untouched. -/
theorem C6_render_cancel_no_state_change_witness :
    cancelRenderObs.cancelRender = true ∧
    renderedOne.state.render cancelRenderObs [srB, srC]
      = { state := renderedOne.state, events := [Event.renderEv],
          err := Option.none } :=
  ⟨rfl,
   C6_render_cancel_no_state_change renderedOne.state cancelRenderObs [srB, srC]
     rfl⟩

/-- C7: the claim's cancel branch holds — canceling `select` leaves the state
unchanged, emits only `select`, and `selected` never fires — but the
non-canceled branch fails on the code: `select` on the rendered item throws a
`TypeError` inside `clear()` (no `DropdownItem#destroy`), so the collection is
NOT cleared (still 1 item) and the `selected` event is never emitted. -/
theorem C7_selected_event_never_fires :
    (selectCanceled.state = renderedOne.state ∧
     selectCanceled.events = [Event.selectEv srA] ∧
     selectCanceled.err = Option.none) ∧
    (selectUncanceled.err
       = some (JsError.typeError "item.destroy is not a function") ∧
     selectUncanceled.state.items.length = 1 ∧
     selectUncanceled.events = [Event.selectEv srA, Event.hideEv, Event.hiddenEv] ∧
     Event.selectedEv srA ∉ selectUncanceled.events) :=
  ⟨⟨rfl, rfl, rfl⟩, rfl, rfl, rfl, by decide⟩

/-- C8: the claim states that when `hide` is canceled during a non-canceled
`select`, visibility stays unchanged and `hidden` is not emitted (both hold),
but that the collection is still cleared (fails): `clear()` throws a
`TypeError` on the non-empty collection, so the items remain. -/
theorem C8_hide_cancel_collection_not_cleared :
    renderedOne.state.shown = true ∧
    selectHideCanceled.state.shown = true ∧
    selectHideCanceled.events = [Event.selectEv srA, Event.hideEv] ∧
    Event.hiddenEv ∉ selectHideCanceled.events ∧
    selectHideCanceled.err
      = some (JsError.typeError "item.destroy is not a function") ∧
    selectHideCanceled.state.items.length = 1 :=
  ⟨rfl, rfl, rfl, by decide, rfl, rfl⟩

/-- C9: header and footer decorations are computed from the full raw candidate
batch (`rawResults = searchResults.map(r => r.data)` taken before the
`maxCount` slice), for every completed non-canceled `render`. -/
theorem C9_edges_use_full_raw_batch (d : Dropdown) (obs : Observers)
    (srs : List SearchResult) (hc : obs.cancelRender = false)
    (hemp : d.items = []) :
    (d.render obs srs).state.headerContent
      = some (d.header.renderContent (srs.map (fun sr => sr.data))) ∧
    (d.render obs srs).state.footerContent
      = some (d.footer.renderContent (srs.map (fun sr => sr.data))) := by
  obtain ⟨-, -, hh, hf⟩ := render_ok d obs srs hc hemp
  exact ⟨hh, hf⟩

/-- C9 witness: the spec scenario — five candidates, `maxCount: 2`, header
function `raw => raw.length + " results"` — renders only 2 items but the
header decoration reads "5 results". -/
theorem C9_edges_use_full_raw_batch_witness :
    (noObs.cancelRender = false ∧ (Dropdown.new headerScenarioOpts).items = []) ∧
    (headerScenario.state.headerContent
       = some ((Dropdown.new headerScenarioOpts).header.renderContent
           (fiveResults.map (fun sr => sr.data))) ∧
     headerScenario.state.footerContent
       = some ((Dropdown.new headerScenarioOpts).footer.renderContent
           (fiveResults.map (fun sr => sr.data)))) ∧
    headerScenario.state.headerContent = some "5 results" ∧
    headerScenario.state.items.length = 2 :=
  ⟨⟨rfl, rfl⟩,
   C9_edges_use_full_raw_batch (Dropdown.new headerScenarioOpts) noObs
     fiveResults rfl rfl,
   by decide, rfl⟩

/-- C10: a constructor `maxCount` option that is falsy (`0` or
absent/null/undefined) yields `this.maxCount == 10`; and at render time the
slice bound `this.maxCount || searchResults.length` falls back to the full
batch length whenever the stored `maxCount` is falsy. -/
theorem C10_falsy_maxCount_defaults (opts : DropdownOptions) (d : Dropdown)
    (srs : List SearchResult)
    (hf : opts.maxCount = Option.none ∨ opts.maxCount = some 0)
    (hz : d.maxCount = 0) :
    (Dropdown.new opts).maxCount = 10 ∧ d.renderCap srs = srs.length := by
  constructor
  · rcases hf with h | h <;> simp [Dropdown.new, h]
  · simp [Dropdown.renderCap, hz]

/-- C10 witness: `maxCount: 0` is coerced to 10 by the constructor, so a
twelve-candidate batch renders 10 items (not zero); the explicit
`maxCount = 0` state makes `renderCap` fall back to the batch length; and the
omitted option also yields 10. -/
theorem C10_falsy_maxCount_defaults_witness :
    (maxCountZeroOpts.maxCount = some 0 ∧ maxCountZeroState.maxCount = 0) ∧
    ((Dropdown.new maxCountZeroOpts).maxCount = 10 ∧
     maxCountZeroState.renderCap twelveResults = twelveResults.length) ∧
    ((Dropdown.new maxCountZeroOpts).render noObs twelveResults).state.items.length
      = 10 ∧
    (Dropdown.new defaultOpts).maxCount = 10 :=
  ⟨⟨rfl, rfl⟩,
   C10_falsy_maxCount_defaults maxCountZeroOpts maxCountZeroState twelveResults
     (Or.inr rfl) rfl,
   by decide, rfl⟩
